import Mathlib

/-!
Verification of the conversation/messaging subsystem of a multi-vendor
e-commerce backend.

The repository contains two parallel schema variants of the subsystem:
a role-typed one (conversations carry a customerId and a vendorId, messages
carry a senderType in the set customer/vendor) and a role-neutral "unified"
one (conversations carry a senderId and a receiverId, messages carry only a
senderId).  Both are embedded below, in the namespaces Typed and Unified.

Modelling conventions:
* The document database is a record of lists (one list per collection) plus
  a monotone clock and an id counter.
* Request-body fields are Option String; a field is "falsy" in the
  JavaScript sense when it is absent (none) or the empty string, which is
  what the routes' bang-negation checks test.
* Every timestamp acquisition (a Prisma now() default or a new Date() call
  in the route body) is modelled as reading the clock and advancing it by
  one tick, so two separate acquisitions yield distinct, increasing
  timestamps.  This mirrors the fact that the routes take separate real-time
  readings for a message's createdAt and for the conversation's
  lastMessageAt.
* A Prisma findUnique/findFirst is List.find?, create appends to the end of
  the collection, update maps over the collection guarded by the id,
  updateMany maps guarded by the filter, and delete-by-missing-id raises an
  error that the routes' catch-all converts into a 500 response.
-/

/-- JavaScript truthiness of an optional string body field: absent, null and
the empty string are falsy, every other string is truthy. -/
def optTruthy : Option String → Bool
  | none => false
  | some s => !(s == "")

namespace Typed

/-- Conversation record of the role-typed schema variant: a customer talks
to a vendor, optionally about one product.  Unread counters are
denormalized per side. -/
structure Conversation where
  id : String
  customerId : String
  vendorId : String
  productId : Option String
  subject : String
  customerUnread : Nat
  vendorUnread : Nat
  lastMessageAt : Nat
  createdAt : Nat
deriving Repr, DecidableEq

/-- Message record of the role-typed schema variant; senderType tags the
author as customer or vendor. -/
structure Message where
  id : String
  conversationId : String
  content : String
  senderId : String
  senderType : String
  isRead : Bool
  createdAt : Nat
deriving Repr, DecidableEq

/-- Database state for the role-typed variant: the collections the
conversation routes touch, plus the clock and id source. -/
structure DB where
  customers : List String
  vendors : List String
  products : List String
  conversations : List Conversation
  messages : List Message
  clock : Nat
  nextId : Nat
deriving Repr, DecidableEq

/-- Generated object id for the next created record. -/
def freshId (db : DB) : String := "obj" ++ toString db.nextId

/-- The conversation update performed after a successful message append:
lastMessageAt becomes the fresh clock reading taken at update time and the
non-sending side's unread counter is incremented (the updateData object of
the route). -/
def touchConv (cid sTy : String) (newTime : Nat) (c : Conversation) :
    Conversation :=
  if c.id == cid then
    { c with
      lastMessageAt := newTime,
      vendorUnread :=
        if sTy == "customer" then c.vendorUnread + 1 else c.vendorUnread,
      customerUnread :=
        if sTy == "customer" then c.customerUnread else c.customerUnread + 1 }
  else c

/-- POST /api/conversations/[id]/messages (role-typed variant).

Validates presence of content, senderId and senderType; validates
senderType against the closed set customer/vendor; 404s when the
conversation id does not resolve; 403s when the sender is not the matching
participant; otherwise appends the message (createdAt from the clock) and
touches the conversation: lastMessageAt is a fresh, later clock reading
(the route calls new Date() again) and the non-sending side's unread
counter is incremented.  Returns (http status, created message if any,
resulting database). -/
def messagesPOST (db : DB) (conversationId : String)
    (content senderId senderType : Option String) :
    Nat × Option Message × DB :=
  if !optTruthy content || !optTruthy senderId || !optTruthy senderType then
    (400, none, db)
  else
    let ct := content.getD ""
    let sId := senderId.getD ""
    let sTy := senderType.getD ""
    if sTy != "customer" && sTy != "vendor" then
      (400, none, db)
    else
      match db.conversations.find? (fun c => c.id == conversationId) with
      | none => (404, none, db)
      | some conv =>
        let isValidSender :=
          (sTy == "customer" && conv.customerId == sId) ||
          (sTy == "vendor" && conv.vendorId == sId)
        if !isValidSender then
          (403, none, db)
        else
          let msg : Message :=
            { id := freshId db, conversationId := conversationId,
              content := ct, senderId := sId, senderType := sTy,
              isRead := false, createdAt := db.clock }
          (201, some msg,
            { db with
              messages := db.messages ++ [msg],
              conversations :=
                db.conversations.map (touchConv conversationId sTy (db.clock + 1)),
              clock := db.clock + 2,
              nextId := db.nextId + 1 })

/-- A batch of message sends into one conversation, alternating freely
between the customer side and the vendor side: true entries are sends by
the customer (senderType customer), false entries are sends by the vendor.
Returns the list of http statuses and the final database. -/
def sendBatch (db : DB) (cid aId bId : String) (sends : List Bool) :
    List Nat × DB :=
  match sends with
  | [] => ([], db)
  | true :: rest =>
    let r := messagesPOST db cid (some "hi") (some aId) (some "customer")
    let rec2 := sendBatch r.2.2 cid aId bId rest
    (r.1 :: rec2.1, rec2.2)
  | false :: rest =>
    let r := messagesPOST db cid (some "hi") (some bId) (some "vendor")
    let rec2 := sendBatch r.2.2 cid aId bId rest
    (r.1 :: rec2.1, rec2.2)

/-- Lookup filter of POST /api/conversations (role-typed variant): the
stored customer/vendor pair is matched in the one stored order only, and
the product filter is spread into the query only when productId is truthy
(the JavaScript conditional spread). -/
def convMatch (cId vId : String) (productId : Option String)
    (c : Conversation) : Bool :=
  c.customerId == cId && c.vendorId == vId &&
    (if optTruthy productId then c.productId == productId else true)

/-- The conversation record built by the typed create path: both unread
counters at 0, creation-time clock for both timestamps, stored product
only when a truthy productId was supplied, and a generated subject naming
the vendor when none was given (the vendor's display name is abstracted by
its id). -/
def newConv (db : DB) (cId vId : String)
    (productId subject : Option String) : Conversation :=
  { id := freshId db, customerId := cId, vendorId := vId,
    productId := if optTruthy productId then productId else none,
    subject :=
      match subject with
      | some s => if s == "" then "Chat with " ++ vId else s
      | none => "Chat with " ++ vId,
    customerUnread := 0, vendorUnread := 0,
    lastMessageAt := db.clock, createdAt := db.clock }

/-- POST /api/conversations (role-typed variant): create-or-get a
conversation between a customer and a vendor.

Validates presence of both ids (no self-conversation check exists in this
variant); looks up an existing conversation before any existence check;
404s when the customer, vendor or supplied product does not resolve;
otherwise creates the conversation with both unread counters at 0 and
lastMessageAt at the creation instant.  Returns (http status, conversation
if any, resulting database); status 200 means found, 201 means created. -/
def conversationsPOST (db : DB)
    (customerId vendorId productId subject : Option String) :
    Nat × Option Conversation × DB :=
  if !optTruthy customerId || !optTruthy vendorId then
    (400, none, db)
  else
    let cId := customerId.getD ""
    let vId := vendorId.getD ""
    match db.conversations.find? (convMatch cId vId productId) with
    | some c => (200, some c, db)
    | none =>
      if !(db.customers.contains cId) then (404, none, db)
      else if !(db.vendors.contains vId) then (404, none, db)
      else if optTruthy productId
          && !(db.products.contains (productId.getD "")) then
        (404, none, db)
      else
        let c : Conversation := newConv db cId vId productId subject
        (201, some c,
          { db with conversations := db.conversations ++ [c],
                    clock := db.clock + 1, nextId := db.nextId + 1 })

/-- The per-message update performed by the mark-read updateMany of
PUT /api/conversations/[id] (role-typed variant): messages of this
conversation authored by the other role and not yet read become read. -/
def markReadMsg (cid otherTy : String) (m : Message) : Message :=
  if m.conversationId == cid && m.senderType == otherTy && !m.isRead then
    { m with isRead := true }
  else m

/-- The conversation update performed by the typed mark-read route: the
caller's own unread counter is set to zero, selected by userType. -/
def resetUnread (cid uTy : String) (c : Conversation) : Conversation :=
  if c.id == cid then
    if uTy == "customer" then { c with customerUnread := 0 }
    else { c with vendorUnread := 0 }
  else c

/-- PUT /api/conversations/[id] (role-typed variant): mark messages as
read for the given userType.

Validates presence of userType only (no participant check in this
variant); first runs the updateMany over the other role's unread messages;
then updates the conversation, zeroing the caller's unread counter.  When
the conversation id does not resolve, the conversation update raises and
the catch-all answers 500 — but the message update has already been
applied.  Returns (http status, resulting database). -/
def conversationPUT (db : DB) (cid : String) (userType : Option String) :
    Nat × DB :=
  if !optTruthy userType then
    (400, db)
  else
    let uTy := userType.getD ""
    let otherTy := if uTy == "customer" then "vendor" else "customer"
    let db1 : DB := { db with messages := db.messages.map (markReadMsg cid otherTy) }
    match db1.conversations.find? (fun c => c.id == cid) with
    | none => (500, db1)
    | some _ =>
      (200,
        { db1 with
          conversations := db1.conversations.map (resetUnread cid uTy) })

/-- DELETE /api/conversations/[id]: remove a conversation.

The route calls the ORM delete directly; when the id does not resolve the
ORM raises a not-found error that the catch-all turns into a 500 response.
Modelled from the spec: the removal of the conversation's messages is the
cascade declared in the Prisma schema, which is not among the source
files; the spec states that delete removes the conversation and, as a
consequence, all of its messages. -/
def conversationDELETE (db : DB) (cid : String) : Nat × DB :=
  match db.conversations.find? (fun c => c.id == cid) with
  | none => (500, db)
  | some _ =>
    (200,
      { db with
        conversations := db.conversations.filter (fun c => !(c.id == cid)),
        messages := db.messages.filter (fun m => !(m.conversationId == cid)) })

/-- GET /api/conversations/[id]: fetch one conversation together with its
messages ordered by ascending createdAt; 404 when the id does not
resolve. -/
def conversationGET (db : DB) (cid : String) :
    Nat × Option (Conversation × List Message) :=
  match db.conversations.find? (fun c => c.id == cid) with
  | none => (404, none)
  | some c =>
    (200, some (c,
      (db.messages.filter (fun m => m.conversationId == cid)).mergeSort
        (fun a b => a.createdAt ≤ b.createdAt)))

end Typed

namespace Unified

/-- Conversation record of the role-neutral ("unified") schema variant:
sender and receiver are both plain users; the stored pair is logically
unordered. -/
structure Conversation where
  id : String
  senderId : String
  receiverId : String
  productId : Option String
  subject : String
  senderUnread : Nat
  receiverUnread : Nat
  lastMessageAt : Nat
  createdAt : Nat
deriving Repr, DecidableEq

/-- Message record of the role-neutral schema variant (no senderType
tag). -/
structure Message where
  id : String
  conversationId : String
  content : String
  senderId : String
  isRead : Bool
  createdAt : Nat
deriving Repr, DecidableEq

/-- Database state for the role-neutral variant. -/
structure DB where
  users : List String
  products : List String
  conversations : List Conversation
  messages : List Message
  clock : Nat
  nextId : Nat
deriving Repr, DecidableEq

/-- Generated object id for the next created record. -/
def freshId (db : DB) : String := "obj" ++ toString db.nextId

/-- Lookup filter of POST /api/conversations-unified: the stored pair is
matched in either order, and inside each branch the product filter is
spread into the query only when productId is truthy (the JavaScript
conditional spread). -/
def convMatch (sId rId : String) (productId : Option String)
    (c : Conversation) : Bool :=
  (c.senderId == sId && c.receiverId == rId &&
    (if optTruthy productId then c.productId == productId else true)) ||
  (c.senderId == rId && c.receiverId == sId &&
    (if optTruthy productId then c.productId == productId else true))

/-- The conversation record built by the unified create path: both unread
counters at 0, creation-time clock for both timestamps, stored product
only when a truthy productId was supplied, and a generated subject naming
the receiver when none was given (the receiver's display name is
abstracted by its id). -/
def newConv (db : DB) (sId rId : String)
    (productId subject : Option String) : Conversation :=
  { id := freshId db, senderId := sId, receiverId := rId,
    productId := if optTruthy productId then productId else none,
    subject :=
      match subject with
      | some s => if s == "" then "Chat with " ++ rId else s
      | none => "Chat with " ++ rId,
    senderUnread := 0, receiverUnread := 0,
    lastMessageAt := db.clock, createdAt := db.clock }

/-- POST /api/conversations-unified: create-or-get a conversation between
two users.

Validates presence of both ids; rejects a self-conversation with 400;
looks up an existing conversation (both orderings of the pair) before any
existence check; 404s when either user or the supplied product does not
resolve; otherwise creates the conversation with both unread counters at 0
and lastMessageAt at the creation instant.  The default subject uses the
receiver's display name, abstracted here by the receiver's id.  Returns
(http status, conversation if any, resulting database); status 200 means
found, 201 means created. -/
def conversationsPOST (db : DB)
    (senderId receiverId productId subject : Option String) :
    Nat × Option Conversation × DB :=
  if !optTruthy senderId || !optTruthy receiverId then
    (400, none, db)
  else
    let sId := senderId.getD ""
    let rId := receiverId.getD ""
    if sId == rId then
      (400, none, db)
    else
      match db.conversations.find? (convMatch sId rId productId) with
      | some c => (200, some c, db)
      | none =>
        if !(db.users.contains sId) then (404, none, db)
        else if !(db.users.contains rId) then (404, none, db)
        else if optTruthy productId
            && !(db.products.contains (productId.getD "")) then
          (404, none, db)
        else
          let c : Conversation := newConv db sId rId productId subject
          (201, some c,
            { db with conversations := db.conversations ++ [c],
                      clock := db.clock + 1, nextId := db.nextId + 1 })

/-- The unread counter belonging to a given participant of a conversation,
selected the way the unified PUT route selects it: the senderUnread field
when the participant is the stored sender, the receiverUnread field
otherwise. -/
def unreadOf (c : Conversation) (uId : String) : Nat :=
  if c.senderId == uId then c.senderUnread else c.receiverUnread

/-- The other participant of a conversation relative to a given one,
computed the way the unified PUT route computes it. -/
def otherParticipant (c : Conversation) (uId : String) : String :=
  if c.senderId == uId then c.receiverId else c.senderId

/-- The per-message update performed by the mark-read updateMany of the
unified PUT route: messages of this conversation authored by the other
participant and not yet read become read. -/
def markReadMsg (cid oId : String) (m : Message) : Message :=
  if m.conversationId == cid && m.senderId == oId && !m.isRead then
    { m with isRead := true }
  else m

/-- The conversation update performed by the unified mark-read route: the
caller's own unread counter is set to zero, selected by whether the caller
is the stored sender. -/
def resetUnread (cid : String) (readerIsSender : Bool) (c : Conversation) :
    Conversation :=
  if c.id == cid then
    if readerIsSender then { c with senderUnread := 0 }
    else { c with receiverUnread := 0 }
  else c

/-- PUT /api/conversations/[id] (role-neutral variant): mark messages as
read for the given user.

Validates presence of userId; 404s when the conversation does not resolve;
403s when the user is not one of the two stored participants; otherwise
marks all unread messages from the other participant as read and zeroes
the caller's unread counter.  Returns (http status, resulting database). -/
def conversationPUT (db : DB) (cid : String) (userId : Option String) :
    Nat × DB :=
  if !optTruthy userId then
    (400, db)
  else
    let uId := userId.getD ""
    match db.conversations.find? (fun c => c.id == cid) with
    | none => (404, db)
    | some conv =>
      if !(conv.senderId == uId) && !(conv.receiverId == uId) then
        (403, db)
      else
        let oId := otherParticipant conv uId
        (200,
          { db with
            messages := db.messages.map (markReadMsg cid oId),
            conversations :=
              db.conversations.map (resetUnread cid (conv.senderId == uId)) })

end Unified

namespace Sample

/-- A typed-variant database with one customer, one vendor, one product and
no conversations. -/
def tdb0 : Typed.DB :=
  { customers := ["A"], vendors := ["B"], products := ["P"],
    conversations := [], messages := [], clock := 0, nextId := 0 }

/-- A fresh typed-variant conversation between customer A and vendor B. -/
def tconv1 : Typed.Conversation :=
  { id := "c1", customerId := "A", vendorId := "B", productId := none,
    subject := "s", customerUnread := 0, vendorUnread := 0,
    lastMessageAt := 0, createdAt := 0 }

/-- A typed-variant database holding the fresh conversation tconv1. -/
def tdb1 : Typed.DB :=
  { customers := ["A"], vendors := ["B"], products := [],
    conversations := [tconv1], messages := [], clock := 1, nextId := 0 }

/-- A typed-variant database in which the same id A exists both as a
customer and as a vendor. -/
def tdbAA : Typed.DB :=
  { customers := ["A"], vendors := ["A"], products := [],
    conversations := [], messages := [], clock := 0, nextId := 0 }

/-- A typed-variant message from the vendor side of tconv1, unread. -/
def tmsgB : Typed.Message :=
  { id := "m1", conversationId := "c1", content := "hi", senderId := "B",
    senderType := "vendor", isRead := false, createdAt := 0 }

/-- The conversation of tdbR: customer A has one unread message from
vendor B. -/
def tconvR : Typed.Conversation :=
  { id := "c1", customerId := "A", vendorId := "B", productId := none,
    subject := "s", customerUnread := 1, vendorUnread := 0,
    lastMessageAt := 1, createdAt := 0 }

/-- A typed-variant database where vendor B has sent one unread message to
customer A in conversation c1. -/
def tdbR : Typed.DB :=
  { customers := ["A"], vendors := ["B"], products := [],
    conversations := [tconvR],
    messages := [tmsgB], clock := 2, nextId := 1 }

/-- A unified-variant database with two users, one product and no
conversations. -/
def udb0 : Unified.DB :=
  { users := ["A", "B"], products := ["P"],
    conversations := [], messages := [], clock := 0, nextId := 0 }

/-- A unified-variant conversation between A and B tied to product P. -/
def uconvP : Unified.Conversation :=
  { id := "c1", senderId := "A", receiverId := "B", productId := some "P",
    subject := "s", senderUnread := 0, receiverUnread := 0,
    lastMessageAt := 0, createdAt := 0 }

/-- A unified-variant database holding the product-scoped conversation
uconvP. -/
def udbP : Unified.DB :=
  { users := ["A", "B"], products := ["P"],
    conversations := [uconvP], messages := [], clock := 1, nextId := 1 }

/-- A unified-variant message from B in conversation c1, unread. -/
def umsgB : Unified.Message :=
  { id := "m1", conversationId := "c1", content := "hi", senderId := "B",
    isRead := false, createdAt := 0 }

/-- The conversation of udbR: both unread counters nonzero. -/
def uconvR : Unified.Conversation :=
  { id := "c1", senderId := "A", receiverId := "B", productId := none,
    subject := "s", senderUnread := 2, receiverUnread := 3,
    lastMessageAt := 1, createdAt := 0 }

/-- A unified-variant database where B has sent one unread message to A in
conversation c1 and both unread counters are nonzero. -/
def udbR : Unified.DB :=
  { users := ["A", "B"], products := [],
    conversations := [uconvR],
    messages := [umsgB], clock := 2, nextId := 1 }

end Sample

/-- If two Boolean predicates agree pointwise, find? returns the same
result for both. -/
theorem listFindCongr {α : Type} (p q : α → Bool) (l : List α)
    (h : ∀ a, p a = q a) : l.find? p = l.find? q := by
  induction l with
  | nil => rfl
  | cons a l ih =>
    simp only [List.find?]
    rw [h a]
    cases q a with
    | false => exact ih
    | true => rfl

/-- find? over a mapped list, when the map preserves the predicate. -/
theorem listFindMapKey {α : Type} (p : α → Bool) (f : α → α) (l : List α)
    (h : ∀ a, p (f a) = p a) : (l.map f).find? p = (l.find? p).map f := by
  induction l with
  | nil => rfl
  | cons a l ih =>
    simp only [List.map, List.find?]
    rw [h a]
    cases p a with
    | false => exact ih
    | true => rfl

/-- Mapping a pointwise idempotent function twice is the same as mapping it
once. -/
theorem listMapIdem {α : Type} (f : α → α) (l : List α)
    (h : ∀ a, f (f a) = f a) : (l.map f).map f = l.map f := by
  induction l with
  | nil => rfl
  | cons a l ih => simp only [List.map, ih, h a]

/-- find? distributes over append, preferring the left list. -/
theorem listFindAppend {α : Type} (p : α → Bool) (l₁ l₂ : List α) :
    (l₁ ++ l₂).find? p = ((l₁.find? p).orElse fun _ => l₂.find? p) := by
  induction l₁ with
  | nil => rfl
  | cons a l ih =>
    simp only [List.cons_append, List.find?]
    cases p a with
    | false => exact ih
    | true => rfl


/-- C10: in the role-typed variant, sendMessage validates senderType
against the closed set customer/vendor before any store lookup: a request
whose senderType is present but any other value yields a 400 validation
error with the database untouched (no lookup happened and nothing was
written), and consequently every stored message keeps a senderType inside
the closed set across every sendMessage call. -/
theorem sendMessage_senderType_closed_set (db : Typed.DB) (cid : String)
    (content senderId : Option String) (t : String)
    (ht1 : t ≠ "customer") (ht2 : t ≠ "vendor") :
    Typed.messagesPOST db cid content senderId (some t) = (400, none, db) ∧
    ∀ (db2 : Typed.DB) (cid2 : String) (c2 s2 ty2 : Option String),
      (∀ m ∈ db2.messages,
        m.senderType = "customer" ∨ m.senderType = "vendor") →
      ∀ m ∈ (Typed.messagesPOST db2 cid2 c2 s2 ty2).2.2.messages,
        m.senderType = "customer" ∨ m.senderType = "vendor" := by
  constructor
  · have hbt : (t != "customer" && t != "vendor") = true := by
      simp only [Bool.and_eq_true, bne_iff_ne, ne_eq]
      exact ⟨ht1, ht2⟩
    unfold Typed.messagesPOST
    by_cases hc :
        (!optTruthy content || !optTruthy senderId
          || !optTruthy (some t)) = true
    · simp [hc]
    · simp [hc, hbt]
  · intro db2 cid2 c2 s2 ty2 hinv m hm
    simp only [Typed.messagesPOST] at hm
    split at hm
    · exact hinv m hm
    · split at hm
      · exact hinv m hm
      · rename_i hty
        split at hm
        · exact hinv m hm
        · split at hm
          · exact hinv m hm
          · simp only [List.mem_append, List.mem_singleton] at hm
            rcases hm with h | h
            · exact hinv m h
            · subst h
              simp only [Bool.and_eq_true, bne_iff_ne, ne_eq, not_and_or,
                not_not] at hty
              simpa using hty

/-- Witness for C10: a concrete request with senderType admin is rejected
with 400 and the database is untouched. -/
theorem sendMessage_senderType_closed_set_witness :
    ("admin" ≠ "customer") ∧ ("admin" ≠ "vendor") ∧
    (Typed.messagesPOST Sample.tdb1 "c1" (some "hi") (some "A")
        (some "admin") = (400, none, Sample.tdb1) ∧
      ∀ (db2 : Typed.DB) (cid2 : String) (c2 s2 ty2 : Option String),
        (∀ m ∈ db2.messages,
          m.senderType = "customer" ∨ m.senderType = "vendor") →
        ∀ m ∈ (Typed.messagesPOST db2 cid2 c2 s2 ty2).2.2.messages,
          m.senderType = "customer" ∨ m.senderType = "vendor") :=
  ⟨by decide, by decide,
    sendMessage_senderType_closed_set Sample.tdb1 "c1" (some "hi")
      (some "A") "admin" (by decide) (by decide)⟩

/-- Counterexample to C8: content consisting only of whitespace is not
rejected — a single-space message into a fresh conversation succeeds with
201 and the space-only message is stored, because the route only tests
JavaScript falsiness of content, never trimming it. -/
theorem sendMessage_whitespace_stored :
    (Typed.messagesPOST Sample.tdb1 "c1" (some " ") (some "A")
        (some "customer")).1 = 201 ∧
    ((Typed.messagesPOST Sample.tdb1 "c1" (some " ") (some "A")
        (some "customer")).2.2.messages.map Typed.Message.content)
      = [" "] := by
  constructor
  · rfl
  · rfl

/-- C8 as amended: sendMessage rejects content that is absent or the empty
string with a 400 validation error, storing nothing; content that is
merely whitespace is not rejected (see the counterexample). -/
theorem sendMessage_blank_content (db : Typed.DB) (cid : String)
    (content senderId senderType : Option String)
    (h : content = none ∨ content = some "") :
    Typed.messagesPOST db cid content senderId senderType
      = (400, none, db) := by
  rcases h with h | h <;> subst h <;> simp [Typed.messagesPOST, optTruthy]

/-- Witness for the amended C8: the concrete empty-content request is
rejected with 400 and the database is untouched. -/
theorem sendMessage_blank_content_witness :
    ((some "" : Option String) = none ∨ (some "" : Option String) = some "")
    ∧ Typed.messagesPOST Sample.tdb1 "c1" (some "") (some "A")
        (some "customer") = (400, none, Sample.tdb1) :=
  ⟨Or.inr rfl,
    sendMessage_blank_content Sample.tdb1 "c1" (some "") (some "A")
      (some "customer") (Or.inr rfl)⟩

/-- touchConv preserves the conversation id. -/
theorem touchConv_id (cid sTy : String) (nt : Nat) (c : Typed.Conversation) :
    (Typed.touchConv cid sTy nt c).id = c.id := by
  unfold Typed.touchConv
  split <;> rfl

/-- Typed resetUnread preserves the conversation id. -/
theorem resetUnreadTyped_id (cid uTy : String) (c : Typed.Conversation) :
    (Typed.resetUnread cid uTy c).id = c.id := by
  unfold Typed.resetUnread
  split
  · split <;> rfl
  · rfl

/-- Unified resetUnread preserves the conversation id. -/
theorem resetUnreadUnified_id (cid : String) (b : Bool)
    (c : Unified.Conversation) :
    (Unified.resetUnread cid b c).id = c.id := by
  unfold Unified.resetUnread
  split
  · split <;> rfl
  · rfl

/-- C5: with a well-formed body (non-blank content and sender id, a valid
senderType), sendMessage answers 404 and stores nothing when the
conversation id does not resolve, and answers 403 and stores nothing when
the given sender is neither of the conversation's recorded participants. -/
theorem sendMessage_auth (db : Typed.DB) (cid ct sId t : String)
    (hct : ct ≠ "") (hsid : sId ≠ "")
    (ht : t = "customer" ∨ t = "vendor") :
    (db.conversations.find? (fun c => c.id == cid) = none →
      Typed.messagesPOST db cid (some ct) (some sId) (some t)
        = (404, none, db)) ∧
    (∀ conv, db.conversations.find? (fun c => c.id == cid) = some conv →
      sId ≠ conv.customerId → sId ≠ conv.vendorId →
      Typed.messagesPOST db cid (some ct) (some sId) (some t)
        = (403, none, db)) := by
  have htne : t ≠ "" := by
    rcases ht with h | h <;> subst h <;> decide
  have hpres :
      (!optTruthy (some ct) || !optTruthy (some sId)
        || !optTruthy (some t)) = false := by
    simp [optTruthy, hct, hsid, htne]
  have hbt : (t != "customer" && t != "vendor") = false := by
    rcases ht with h | h <;> subst h <;> decide
  constructor
  · intro hfind
    simp [Typed.messagesPOST, hpres, hbt, hfind]
  · intro conv hfind h1 h2
    have e1 : (conv.customerId == sId) = false :=
      beq_eq_false_iff_ne.mpr (Ne.symm h1)
    have e2 : (conv.vendorId == sId) = false :=
      beq_eq_false_iff_ne.mpr (Ne.symm h2)
    simp [Typed.messagesPOST, hpres, hbt, hfind, e1, e2]

/-- Witness for C5: on a concrete database, a message into a missing
conversation id gives 404, and a message from a non-participant X gives
403; the database is untouched both times. -/
theorem sendMessage_auth_witness :
    ("hi" ≠ "") ∧ ("X" ≠ "") ∧
    ("customer" = "customer" ∨ "customer" = "vendor") ∧
    Sample.tdb1.conversations.find? (fun c => c.id == "c9") = none ∧
    Typed.messagesPOST Sample.tdb1 "c9" (some "hi") (some "X")
      (some "customer") = (404, none, Sample.tdb1) ∧
    Sample.tdb1.conversations.find? (fun c => c.id == "c1")
      = some Sample.tconv1 ∧
    ("X" ≠ Sample.tconv1.customerId) ∧ ("X" ≠ Sample.tconv1.vendorId) ∧
    Typed.messagesPOST Sample.tdb1 "c1" (some "hi") (some "X")
      (some "customer") = (403, none, Sample.tdb1) :=
  ⟨by decide, by decide, Or.inl rfl, by rfl,
    (sendMessage_auth Sample.tdb1 "c9" "hi" "X" "customer" (by decide)
      (by decide) (Or.inl rfl)).1 (by rfl),
    by rfl, by decide, by decide,
    (sendMessage_auth Sample.tdb1 "c1" "hi" "X" "customer" (by decide)
      (by decide) (Or.inl rfl)).2 Sample.tconv1 (by rfl) (by decide)
      (by decide)⟩

/-- Shape of a successful sendMessage in the role-typed variant: the
message is appended with createdAt read from the clock, and every
conversation is rewritten through touchConv with a strictly later fresh
clock reading. -/
theorem messagesPOST_success (db : Typed.DB) (cid ct sId t : String)
    (conv : Typed.Conversation)
    (hct : ct ≠ "") (hsid : sId ≠ "")
    (ht : t = "customer" ∨ t = "vendor")
    (hfind : db.conversations.find? (fun c => c.id == cid) = some conv)
    (hvalid : (t = "customer" ∧ conv.customerId = sId) ∨
              (t = "vendor" ∧ conv.vendorId = sId)) :
    Typed.messagesPOST db cid (some ct) (some sId) (some t) =
      (201,
        some { id := Typed.freshId db, conversationId := cid,
               content := ct, senderId := sId, senderType := t,
               isRead := false, createdAt := db.clock },
        { db with
          messages := db.messages ++
            [{ id := Typed.freshId db, conversationId := cid,
               content := ct, senderId := sId, senderType := t,
               isRead := false, createdAt := db.clock }],
          conversations :=
            db.conversations.map (Typed.touchConv cid t (db.clock + 1)),
          clock := db.clock + 2,
          nextId := db.nextId + 1 }) := by
  have htne : t ≠ "" := by
    rcases ht with h | h <;> subst h <;> decide
  have hpres :
      (!optTruthy (some ct) || !optTruthy (some sId)
        || !optTruthy (some t)) = false := by
    simp [optTruthy, hct, hsid, htne]
  have hbt : (t != "customer" && t != "vendor") = false := by
    rcases ht with h | h <;> subst h <;> decide
  have hv : ((t == "customer" && conv.customerId == sId) ||
             (t == "vendor" && conv.vendorId == sId)) = true := by
    rcases hvalid with ⟨h1, h2⟩ | ⟨h1, h2⟩ <;> subst h1 <;> simp [h2]
  simp [Typed.messagesPOST, hpres, hbt, hfind, hv]

/-- Counterexample to C4: on a concrete fresh conversation, one successful
send stores a message with createdAt 1 while the conversation's
lastMessageAt becomes 2 — the route reads the clock again (new Date()) at
the touch update instead of reusing the message's createdAt, so
lastMessageAt does not equal the createdAt of the most recent message. -/
theorem lastMessageAt_not_most_recent_createdAt :
    (Typed.messagesPOST Sample.tdb1 "c1" (some "hi") (some "A")
        (some "customer")).1 = 201 ∧
    ((Typed.messagesPOST Sample.tdb1 "c1" (some "hi") (some "A")
        (some "customer")).2.2.messages.map Typed.Message.createdAt)
      = [1] ∧
    ((Typed.messagesPOST Sample.tdb1 "c1" (some "hi") (some "A")
        (some "customer")).2.2.conversations.map
        Typed.Conversation.lastMessageAt) = [2] ∧
    (2 : Nat) ≠ 1 := by
  refine ⟨by decide, by decide, by decide, by decide⟩

/-- C4 as amended: after every successful sendMessage the appended message
is the conversation's most recent message, and the conversation's
lastMessageAt is the fresh clock reading taken at the touch update, which
is strictly greater than — one tick after, never equal to — the
message's createdAt, because the route calls new Date() again rather than
reusing the message's createdAt. -/
theorem sendMessage_touch_after_append (db : Typed.DB)
    (cid ct sId t : String) (conv : Typed.Conversation)
    (hct : ct ≠ "") (hsid : sId ≠ "")
    (ht : t = "customer" ∨ t = "vendor")
    (hfind : db.conversations.find? (fun c => c.id == cid) = some conv)
    (hvalid : (t = "customer" ∧ conv.customerId = sId) ∨
              (t = "vendor" ∧ conv.vendorId = sId)) :
    (Typed.messagesPOST db cid (some ct) (some sId) (some t)).1 = 201 ∧
    ∃ m,
      (Typed.messagesPOST db cid (some ct) (some sId) (some t)).2.1
        = some m ∧
      (Typed.messagesPOST db cid (some ct) (some sId) (some t)).2.2.messages
        = db.messages ++ [m] ∧
      (Typed.messagesPOST db cid (some ct) (some sId)
          (some t)).2.2.messages.getLast? = some m ∧
      ∃ c2,
        (Typed.messagesPOST db cid (some ct) (some sId)
            (some t)).2.2.conversations.find? (fun c => c.id == cid)
          = some c2 ∧
        c2.lastMessageAt = m.createdAt + 1 ∧
        m.createdAt < c2.lastMessageAt := by
  have hs := messagesPOST_success db cid ct sId t conv hct hsid ht hfind hvalid
  have hid : (conv.id == cid) = true := by
    have h := List.find?_some hfind
    simpa using h
  rw [hs]
  refine ⟨rfl, _, rfl, rfl, ?_, ?_⟩
  · exact List.getLast?_concat _
  · refine ⟨Typed.touchConv cid t (db.clock + 1) conv, ?_, ?_, ?_⟩
    · show (db.conversations.map (Typed.touchConv cid t (db.clock + 1))).find?
          (fun c => c.id == cid) = _
      rw [listFindMapKey (fun c => c.id == cid)
        (Typed.touchConv cid t (db.clock + 1)) db.conversations
        (fun a => by simp [touchConv_id]), hfind]
      rfl
    · show (Typed.touchConv cid t (db.clock + 1) conv).lastMessageAt
        = db.clock + 1
      unfold Typed.touchConv
      rw [if_pos hid]
    · show db.clock < (Typed.touchConv cid t (db.clock + 1) conv).lastMessageAt
      unfold Typed.touchConv
      rw [if_pos hid]
      exact Nat.lt_succ_self _

/-- Witness for the amended C4: one concrete successful send into a fresh
conversation, where the touch update lands one tick after the message's
createdAt. -/
theorem sendMessage_touch_after_append_witness :
    ("hi" ≠ "") ∧ ("A" ≠ "") ∧
    ("customer" = "customer" ∨ "customer" = "vendor") ∧
    Sample.tdb1.conversations.find? (fun c => c.id == "c1")
      = some Sample.tconv1 ∧
    (("customer" = "customer" ∧ Sample.tconv1.customerId = "A") ∨
      ("customer" = "vendor" ∧ Sample.tconv1.vendorId = "A")) ∧
    ((Typed.messagesPOST Sample.tdb1 "c1" (some "hi") (some "A")
        (some "customer")).1 = 201 ∧
      ∃ m,
        (Typed.messagesPOST Sample.tdb1 "c1" (some "hi") (some "A")
            (some "customer")).2.1 = some m ∧
        (Typed.messagesPOST Sample.tdb1 "c1" (some "hi") (some "A")
            (some "customer")).2.2.messages
          = Sample.tdb1.messages ++ [m] ∧
        (Typed.messagesPOST Sample.tdb1 "c1" (some "hi") (some "A")
            (some "customer")).2.2.messages.getLast? = some m ∧
        ∃ c2,
          (Typed.messagesPOST Sample.tdb1 "c1" (some "hi") (some "A")
              (some "customer")).2.2.conversations.find?
              (fun c => c.id == "c1") = some c2 ∧
          c2.lastMessageAt = m.createdAt + 1 ∧
          m.createdAt < c2.lastMessageAt) :=
  ⟨by decide, by decide, Or.inl rfl, by rfl, Or.inl ⟨rfl, by decide⟩,
    sendMessage_touch_after_append Sample.tdb1 "c1" "hi" "A" "customer"
      Sample.tconv1 (by decide) (by decide) (Or.inl rfl) (by rfl)
      (Or.inl ⟨rfl, by decide⟩)⟩

/-- touchConv for a customer send bumps the vendor's unread counter and
sets lastMessageAt, leaving everything else alone. -/
theorem touchConv_customer (cid : String) (nt : Nat)
    (c : Typed.Conversation) (hid : (c.id == cid) = true) :
    Typed.touchConv cid "customer" nt c =
      { c with lastMessageAt := nt, vendorUnread := c.vendorUnread + 1 } := by
  unfold Typed.touchConv
  rw [if_pos hid]
  simp

/-- touchConv for a vendor send bumps the customer's unread counter and
sets lastMessageAt, leaving everything else alone. -/
theorem touchConv_vendor (cid : String) (nt : Nat)
    (c : Typed.Conversation) (hid : (c.id == cid) = true) :
    Typed.touchConv cid "vendor" nt c =
      { c with lastMessageAt := nt, customerUnread := c.customerUnread + 1 } := by
  have hne : ("vendor" == "customer") = false := by decide
  unfold Typed.touchConv
  rw [if_pos hid]
  simp [hne]

/-- Every send in a batch succeeds with 201, and the two unread counters
of the conversation grow by exactly the number of sends of the opposite
side (general form, arbitrary starting counters). -/
theorem sendBatch_spec (sends : List Bool) (db : Typed.DB)
    (cid aId bId : String) (conv : Typed.Conversation)
    (ha : aId ≠ "") (hb : bId ≠ "")
    (hfind : db.conversations.find? (fun c => c.id == cid) = some conv)
    (hca : conv.customerId = aId) (hvb : conv.vendorId = bId) :
    (Typed.sendBatch db cid aId bId sends).1
      = List.replicate sends.length 201 ∧
    ∃ conv2,
      (Typed.sendBatch db cid aId bId sends).2.conversations.find?
        (fun c => c.id == cid) = some conv2 ∧
      conv2.customerId = aId ∧ conv2.vendorId = bId ∧
      conv2.vendorUnread = conv.vendorUnread + sends.count true ∧
      conv2.customerUnread = conv.customerUnread + sends.count false := by
  induction sends generalizing db conv with
  | nil =>
    exact ⟨rfl, conv, hfind, hca, hvb, by simp, by simp⟩
  | cons b rest ih =>
    have hid : (conv.id == cid) = true := by
      simpa using List.find?_some hfind
    cases b with
    | true =>
      have hsend := messagesPOST_success db cid "hi" aId "customer" conv
        (by decide) ha (Or.inl rfl) hfind (Or.inl ⟨rfl, hca⟩)
      simp only [Typed.sendBatch, hsend]
      have hfind2 :
          (db.conversations.map
              (Typed.touchConv cid "customer" (db.clock + 1))).find?
            (fun c => c.id == cid)
          = some { conv with lastMessageAt := db.clock + 1,
                             vendorUnread := conv.vendorUnread + 1 } := by
        rw [listFindMapKey (fun c => c.id == cid)
          (Typed.touchConv cid "customer" (db.clock + 1)) db.conversations
          (fun a => by simp [touchConv_id]), hfind]
        simp [touchConv_customer cid (db.clock + 1) conv hid]
      obtain ⟨ih1, conv2, ihf, ihca, ihvb, ihv, ihc⟩ :=
        ih { db with
              messages := db.messages ++
                [{ id := Typed.freshId db, conversationId := cid,
                   content := "hi", senderId := aId,
                   senderType := "customer", isRead := false,
                   createdAt := db.clock }],
              conversations := db.conversations.map
                (Typed.touchConv cid "customer" (db.clock + 1)),
              clock := db.clock + 2,
              nextId := db.nextId + 1 }
          { conv with lastMessageAt := db.clock + 1,
                      vendorUnread := conv.vendorUnread + 1 }
          hfind2 hca hvb
      refine ⟨?_, conv2, ihf, ihca, ihvb, ?_, ?_⟩
      · rw [ih1]
        simp [List.replicate_succ]
      · have hc1 : (true :: rest).count true = rest.count true + 1 :=
          List.count_cons_self true rest
        rw [hc1]
        simp only at ihv
        omega
      · have hc2 : (true :: rest).count false = rest.count false := by
          simp [List.count_cons]
        rw [hc2]
        simp only at ihc
        omega
    | false =>
      have hsend := messagesPOST_success db cid "hi" bId "vendor" conv
        (by decide) hb (Or.inr rfl) hfind (Or.inr ⟨rfl, hvb⟩)
      simp only [Typed.sendBatch, hsend]
      have hfind2 :
          (db.conversations.map
              (Typed.touchConv cid "vendor" (db.clock + 1))).find?
            (fun c => c.id == cid)
          = some { conv with lastMessageAt := db.clock + 1,
                             customerUnread := conv.customerUnread + 1 } := by
        rw [listFindMapKey (fun c => c.id == cid)
          (Typed.touchConv cid "vendor" (db.clock + 1)) db.conversations
          (fun a => by simp [touchConv_id]), hfind]
        simp [touchConv_vendor cid (db.clock + 1) conv hid]
      obtain ⟨ih1, conv2, ihf, ihca, ihvb, ihv, ihc⟩ :=
        ih { db with
              messages := db.messages ++
                [{ id := Typed.freshId db, conversationId := cid,
                   content := "hi", senderId := bId,
                   senderType := "vendor", isRead := false,
                   createdAt := db.clock }],
              conversations := db.conversations.map
                (Typed.touchConv cid "vendor" (db.clock + 1)),
              clock := db.clock + 2,
              nextId := db.nextId + 1 }
          { conv with lastMessageAt := db.clock + 1,
                      customerUnread := conv.customerUnread + 1 }
          hfind2 hca hvb
      refine ⟨?_, conv2, ihf, ihca, ihvb, ?_, ?_⟩
      · rw [ih1]
        simp [List.replicate_succ]
      · have hc1 : (false :: rest).count true = rest.count true := by
          simp [List.count_cons]
        rw [hc1]
        simp only at ihv
        omega
      · have hc2 : (false :: rest).count false = rest.count false + 1 :=
          List.count_cons_self false rest
        rw [hc2]
        simp only at ihc
        omega

/-- C2: starting from a conversation with both unread counters at zero,
any interleaving of N sends by the customer and M sends by the vendor (no
mark-read in between) succeeds throughout, and afterwards the vendor's
unread counter equals N and the customer's equals M — each send increments
exactly the non-sender's counter by one. -/
theorem unread_counters_count_sends (sends : List Bool) (db : Typed.DB)
    (cid aId bId : String) (conv : Typed.Conversation)
    (ha : aId ≠ "") (hb : bId ≠ "")
    (hfind : db.conversations.find? (fun c => c.id == cid) = some conv)
    (hca : conv.customerId = aId) (hvb : conv.vendorId = bId)
    (hcu : conv.customerUnread = 0) (hvu : conv.vendorUnread = 0) :
    (Typed.sendBatch db cid aId bId sends).1
      = List.replicate sends.length 201 ∧
    ∃ conv2,
      (Typed.sendBatch db cid aId bId sends).2.conversations.find?
        (fun c => c.id == cid) = some conv2 ∧
      conv2.vendorUnread = sends.count true ∧
      conv2.customerUnread = sends.count false := by
  obtain ⟨h1, conv2, h2, h3, h4, h5, h6⟩ :=
    sendBatch_spec sends db cid aId bId conv ha hb hfind hca hvb
  exact ⟨h1, conv2, h2, by omega, by omega⟩

/-- Witness for C2: two customer sends and one vendor send into the
concrete fresh conversation leave the vendor's counter at 2 and the
customer's at 1, all three calls answering 201. -/
theorem unread_counters_count_sends_witness :
    ("A" ≠ "") ∧ ("B" ≠ "") ∧
    Sample.tdb1.conversations.find? (fun c => c.id == "c1")
      = some Sample.tconv1 ∧
    Sample.tconv1.customerId = "A" ∧ Sample.tconv1.vendorId = "B" ∧
    Sample.tconv1.customerUnread = 0 ∧ Sample.tconv1.vendorUnread = 0 ∧
    ((Typed.sendBatch Sample.tdb1 "c1" "A" "B" [true, true, false]).1
        = List.replicate [true, true, false].length 201 ∧
      ∃ conv2,
        (Typed.sendBatch Sample.tdb1 "c1" "A" "B"
            [true, true, false]).2.conversations.find?
          (fun c => c.id == "c1") = some conv2 ∧
        conv2.vendorUnread = [true, true, false].count true ∧
        conv2.customerUnread = [true, true, false].count false) :=
  ⟨by decide, by decide, by rfl, rfl, rfl, rfl, rfl,
    unread_counters_count_sends [true, true, false] Sample.tdb1 "c1" "A"
      "B" Sample.tconv1 (by decide) (by decide) (by rfl) rfl rfl rfl rfl⟩

/-- Unified markReadMsg preserves the message's conversation id. -/
theorem umarkRead_convId (cid oId : String) (m : Unified.Message) :
    (Unified.markReadMsg cid oId m).conversationId = m.conversationId := by
  unfold Unified.markReadMsg
  split <;> rfl

/-- Unified markReadMsg preserves the message's sender id. -/
theorem umarkRead_senderId (cid oId : String) (m : Unified.Message) :
    (Unified.markReadMsg cid oId m).senderId = m.senderId := by
  unfold Unified.markReadMsg
  split <;> rfl

/-- After unified markReadMsg, a message of this conversation authored by
the other participant is read. -/
theorem umarkRead_reads (cid oId : String) (m : Unified.Message)
    (h1 : m.conversationId = cid) (h2 : m.senderId = oId) :
    (Unified.markReadMsg cid oId m).isRead = true := by
  unfold Unified.markReadMsg
  subst h1
  subst h2
  cases hr : m.isRead <;> simp [hr]

/-- Unified markReadMsg leaves any message by a different author
untouched. -/
theorem umarkRead_other (cid oId : String) (m : Unified.Message)
    (h : m.senderId ≠ oId) : Unified.markReadMsg cid oId m = m := by
  unfold Unified.markReadMsg
  rw [if_neg]
  simp [h]

/-- Unified markReadMsg is pointwise idempotent. -/
theorem umarkRead_idem (cid oId : String) (m : Unified.Message) :
    Unified.markReadMsg cid oId (Unified.markReadMsg cid oId m)
      = Unified.markReadMsg cid oId m := by
  unfold Unified.markReadMsg
  by_cases h : (m.conversationId == cid && m.senderId == oId && !m.isRead)
      = true
  · rw [if_pos h]
    simp
  · rw [if_neg h, if_neg h]

/-- Unified resetUnread preserves the stored sender id. -/
theorem ureset_senderId (cid : String) (b : Bool)
    (c : Unified.Conversation) :
    (Unified.resetUnread cid b c).senderId = c.senderId := by
  unfold Unified.resetUnread
  split
  · split <;> rfl
  · rfl

/-- Unified resetUnread preserves the stored receiver id. -/
theorem ureset_receiverId (cid : String) (b : Bool)
    (c : Unified.Conversation) :
    (Unified.resetUnread cid b c).receiverId = c.receiverId := by
  unfold Unified.resetUnread
  split
  · split <;> rfl
  · rfl

/-- Unified resetUnread is pointwise idempotent. -/
theorem ureset_idem (cid : String) (b : Bool) (c : Unified.Conversation) :
    Unified.resetUnread cid b (Unified.resetUnread cid b c)
      = Unified.resetUnread cid b c := by
  unfold Unified.resetUnread
  by_cases h : (c.id == cid) = true
  · rw [if_pos h]
    cases b <;> simp [h]
  · rw [if_neg h, if_neg h]

/-- Shape of a successful unified mark-read: 200, every message rewritten
through markReadMsg for the other participant, every conversation
rewritten through resetUnread for the caller's side. -/
theorem uPUT_success (db : Unified.DB) (cid uId : String)
    (conv : Unified.Conversation)
    (hu : uId ≠ "")
    (hfind : db.conversations.find? (fun c => c.id == cid) = some conv)
    (hpart : conv.senderId = uId ∨ conv.receiverId = uId) :
    Unified.conversationPUT db cid (some uId) =
      (200,
        { db with
          messages := db.messages.map
            (Unified.markReadMsg cid (Unified.otherParticipant conv uId)),
          conversations := db.conversations.map
            (Unified.resetUnread cid (conv.senderId == uId)) }) := by
  have hpres : optTruthy (some uId) = true := by
    simp [optTruthy, hu]
  have hauth : (!(conv.senderId == uId) && !(conv.receiverId == uId))
      = false := by
    rcases hpart with h | h <;> simp [h]
  simp [Unified.conversationPUT, hpres, hfind, hauth]

/-- Typed markReadMsg preserves the message's conversation id. -/
theorem tmarkRead_convId (cid oTy : String) (m : Typed.Message) :
    (Typed.markReadMsg cid oTy m).conversationId = m.conversationId := by
  unfold Typed.markReadMsg
  split <;> rfl

/-- Typed markReadMsg preserves the message's senderType. -/
theorem tmarkRead_senderType (cid oTy : String) (m : Typed.Message) :
    (Typed.markReadMsg cid oTy m).senderType = m.senderType := by
  unfold Typed.markReadMsg
  split <;> rfl

/-- After typed markReadMsg, a message of this conversation authored by
the other role is read. -/
theorem tmarkRead_reads (cid oTy : String) (m : Typed.Message)
    (h1 : m.conversationId = cid) (h2 : m.senderType = oTy) :
    (Typed.markReadMsg cid oTy m).isRead = true := by
  unfold Typed.markReadMsg
  subst h1
  subst h2
  cases hr : m.isRead <;> simp [hr]

/-- Typed markReadMsg leaves any message by a different role untouched. -/
theorem tmarkRead_other (cid oTy : String) (m : Typed.Message)
    (h : m.senderType ≠ oTy) : Typed.markReadMsg cid oTy m = m := by
  unfold Typed.markReadMsg
  rw [if_neg]
  simp [h]

/-- Typed markReadMsg is pointwise idempotent. -/
theorem tmarkRead_idem (cid oTy : String) (m : Typed.Message) :
    Typed.markReadMsg cid oTy (Typed.markReadMsg cid oTy m)
      = Typed.markReadMsg cid oTy m := by
  unfold Typed.markReadMsg
  by_cases h : (m.conversationId == cid && m.senderType == oTy && !m.isRead)
      = true
  · rw [if_pos h]
    simp
  · rw [if_neg h, if_neg h]

/-- Typed resetUnread is pointwise idempotent. -/
theorem treset_idem (cid uTy : String) (c : Typed.Conversation) :
    Typed.resetUnread cid uTy (Typed.resetUnread cid uTy c)
      = Typed.resetUnread cid uTy c := by
  unfold Typed.resetUnread
  by_cases h : (c.id == cid) = true
  · rw [if_pos h]
    by_cases h2 : (uTy == "customer") = true
    · simp [h, h2]
    · simp [h, h2]
  · rw [if_neg h, if_neg h]

/-- Shape of a successful typed mark-read: 200, every message rewritten
through markReadMsg for the opposite role, every conversation rewritten
through resetUnread for the caller's role. -/
theorem tPUT_success (db : Typed.DB) (cid uTy : String)
    (conv : Typed.Conversation)
    (hu : uTy ≠ "")
    (hfind : db.conversations.find? (fun c => c.id == cid) = some conv) :
    Typed.conversationPUT db cid (some uTy) =
      (200,
        { db with
          messages := db.messages.map
            (Typed.markReadMsg cid
              (if uTy == "customer" then "vendor" else "customer")),
          conversations := db.conversations.map
            (Typed.resetUnread cid uTy) }) := by
  have hpres : optTruthy (some uTy) = true := by
    simp [optTruthy, hu]
  simp [Typed.conversationPUT, hpres, hfind]

/-- Full effect of a successful unified mark-read: 200; all of the other
participant's messages in the conversation are read afterwards; messages
by anyone else pass through unchanged; the caller's unread counter is
zeroed while the other participant's counter and the stored pair are
unchanged; and running the same call again returns 200 and changes
nothing. -/
theorem uPUT_markRead_spec (db : Unified.DB) (cid uId : String)
    (conv : Unified.Conversation)
    (hu : uId ≠ "")
    (hfind : db.conversations.find? (fun c => c.id == cid) = some conv)
    (hdist : conv.senderId ≠ conv.receiverId)
    (hpart : conv.senderId = uId ∨ conv.receiverId = uId) :
    (Unified.conversationPUT db cid (some uId)).1 = 200 ∧
    (Unified.conversationPUT db cid (some uId)).2.messages
      = db.messages.map
          (Unified.markReadMsg cid (Unified.otherParticipant conv uId)) ∧
    (∀ m : Unified.Message,
      m.senderId ≠ Unified.otherParticipant conv uId →
      Unified.markReadMsg cid (Unified.otherParticipant conv uId) m = m) ∧
    (∀ m2 ∈ (Unified.conversationPUT db cid (some uId)).2.messages,
      m2.conversationId = cid →
      m2.senderId = Unified.otherParticipant conv uId →
      m2.isRead = true) ∧
    (∃ conv2,
      (Unified.conversationPUT db cid (some uId)).2.conversations.find?
        (fun c => c.id == cid) = some conv2 ∧
      conv2.senderId = conv.senderId ∧
      conv2.receiverId = conv.receiverId ∧
      Unified.unreadOf conv2 uId = 0 ∧
      Unified.unreadOf conv2 (Unified.otherParticipant conv uId)
        = Unified.unreadOf conv (Unified.otherParticipant conv uId)) ∧
    Unified.conversationPUT
        ((Unified.conversationPUT db cid (some uId)).2) cid (some uId)
      = (200, (Unified.conversationPUT db cid (some uId)).2) := by
  have hs := uPUT_success db cid uId conv hu hfind hpart
  have hid : (conv.id == cid) = true := by
    simpa using List.find?_some hfind
  rw [hs]
  refine ⟨rfl, rfl, ?_, ?_, ?_, ?_⟩
  · intro m hm
    exact umarkRead_other cid _ m hm
  · intro m2 hm2 h1 h2
    rcases List.mem_map.mp hm2 with ⟨m, hmem, hEq⟩
    subst hEq
    rw [umarkRead_convId] at h1
    rw [umarkRead_senderId] at h2
    exact umarkRead_reads cid _ m h1 h2
  · refine ⟨Unified.resetUnread cid (conv.senderId == uId) conv, ?_,
      ureset_senderId cid _ conv, ureset_receiverId cid _ conv, ?_, ?_⟩
    · show (db.conversations.map
          (Unified.resetUnread cid (conv.senderId == uId))).find?
          (fun c => c.id == cid) = _
      rw [listFindMapKey (fun c => c.id == cid)
        (Unified.resetUnread cid (conv.senderId == uId)) db.conversations
        (fun a => by simp [resetUnreadUnified_id]), hfind]
      rfl
    · unfold Unified.unreadOf Unified.resetUnread
      rw [if_pos hid]
      by_cases hsu : (conv.senderId == uId) = true
      · simp [hsu]
      · have hru : (conv.receiverId == uId) = true := by
          rcases hpart with h | h
          · exact absurd (by simp [h]) hsu
          · simp [h]
        simp [hsu, hru]
    · unfold Unified.unreadOf Unified.otherParticipant Unified.resetUnread
      rw [if_pos hid]
      by_cases hsu : (conv.senderId == uId) = true
      · have hne : (conv.senderId == conv.receiverId) = false :=
          beq_eq_false_iff_ne.mpr hdist
        simp [hsu, hne]
      · simp [hsu]
  · have hfind2 : ((db.conversations.map
        (Unified.resetUnread cid (conv.senderId == uId)))).find?
        (fun c => c.id == cid)
        = some (Unified.resetUnread cid (conv.senderId == uId) conv) := by
      rw [listFindMapKey (fun c => c.id == cid)
        (Unified.resetUnread cid (conv.senderId == uId)) db.conversations
        (fun a => by simp [resetUnreadUnified_id]), hfind]
      rfl
    have hpart2 :
        (Unified.resetUnread cid (conv.senderId == uId) conv).senderId = uId
        ∨ (Unified.resetUnread cid (conv.senderId == uId) conv).receiverId
            = uId := by
      rw [ureset_senderId, ureset_receiverId]
      exact hpart
    have hs2 := uPUT_success
      { db with
        messages := db.messages.map
          (Unified.markReadMsg cid (Unified.otherParticipant conv uId)),
        conversations := db.conversations.map
          (Unified.resetUnread cid (conv.senderId == uId)) }
      cid uId (Unified.resetUnread cid (conv.senderId == uId) conv)
      hu hfind2 hpart2
    rw [hs2]
    have hop : Unified.otherParticipant
        (Unified.resetUnread cid (conv.senderId == uId) conv) uId
        = Unified.otherParticipant conv uId := by
      unfold Unified.otherParticipant
      rw [ureset_senderId, ureset_receiverId]
    have hbs : ((Unified.resetUnread cid (conv.senderId == uId)
        conv).senderId == uId) = (conv.senderId == uId) := by
      rw [ureset_senderId]
    rw [hop, hbs]
    show (200,
        { db with
          messages := (db.messages.map
            (Unified.markReadMsg cid
              (Unified.otherParticipant conv uId))).map
            (Unified.markReadMsg cid (Unified.otherParticipant conv uId)),
          conversations := (db.conversations.map
            (Unified.resetUnread cid (conv.senderId == uId))).map
            (Unified.resetUnread cid (conv.senderId == uId)) })
      = _
    rw [listMapIdem (Unified.markReadMsg cid
        (Unified.otherParticipant conv uId)) db.messages
      (fun m => umarkRead_idem cid _ m),
      listMapIdem (Unified.resetUnread cid (conv.senderId == uId))
        db.conversations (fun c => ureset_idem cid _ c)]

/-- Full effect of a typed mark-read with a valid userType on an existing
conversation: 200; all of the opposite role's messages in the conversation
are read afterwards; messages of the caller's own role pass through
unchanged; the caller's unread counter is zeroed while the opposite
counter is unchanged; and running the same call again returns 200 and
changes nothing. -/
theorem tPUT_markRead_spec (db : Typed.DB) (cid uTy : String)
    (conv : Typed.Conversation)
    (ht : uTy = "customer" ∨ uTy = "vendor")
    (hfind : db.conversations.find? (fun c => c.id == cid) = some conv) :
    (Typed.conversationPUT db cid (some uTy)).1 = 200 ∧
    (Typed.conversationPUT db cid (some uTy)).2.messages
      = db.messages.map
          (Typed.markReadMsg cid
            (if uTy == "customer" then "vendor" else "customer")) ∧
    (∀ m : Typed.Message,
      m.senderType ≠ (if uTy == "customer" then "vendor" else "customer") →
      Typed.markReadMsg cid
        (if uTy == "customer" then "vendor" else "customer") m = m) ∧
    (∀ m2 ∈ (Typed.conversationPUT db cid (some uTy)).2.messages,
      m2.conversationId = cid →
      m2.senderType = (if uTy == "customer" then "vendor" else "customer") →
      m2.isRead = true) ∧
    (∃ conv2,
      (Typed.conversationPUT db cid (some uTy)).2.conversations.find?
        (fun c => c.id == cid) = some conv2 ∧
      conv2.customerId = conv.customerId ∧
      conv2.vendorId = conv.vendorId ∧
      (uTy = "customer" → conv2.customerUnread = 0 ∧
        conv2.vendorUnread = conv.vendorUnread) ∧
      (uTy = "vendor" → conv2.vendorUnread = 0 ∧
        conv2.customerUnread = conv.customerUnread)) ∧
    Typed.conversationPUT
        ((Typed.conversationPUT db cid (some uTy)).2) cid (some uTy)
      = (200, (Typed.conversationPUT db cid (some uTy)).2) := by
  have hu : uTy ≠ "" := by
    rcases ht with h | h <;> subst h <;> decide
  have hs := tPUT_success db cid uTy conv hu hfind
  have hid : (conv.id == cid) = true := by
    simpa using List.find?_some hfind
  rw [hs]
  refine ⟨rfl, rfl, ?_, ?_, ?_, ?_⟩
  · intro m hm
    exact tmarkRead_other cid _ m hm
  · intro m2 hm2 h1 h2
    rcases List.mem_map.mp hm2 with ⟨m, hmem, hEq⟩
    subst hEq
    rw [tmarkRead_convId] at h1
    rw [tmarkRead_senderType] at h2
    exact tmarkRead_reads cid _ m h1 h2
  · refine ⟨Typed.resetUnread cid uTy conv, ?_, ?_, ?_, ?_, ?_⟩
    · show (db.conversations.map (Typed.resetUnread cid uTy)).find?
          (fun c => c.id == cid) = _
      rw [listFindMapKey (fun c => c.id == cid)
        (Typed.resetUnread cid uTy) db.conversations
        (fun a => by simp [resetUnreadTyped_id]), hfind]
      rfl
    · unfold Typed.resetUnread
      rw [if_pos hid]
      rcases ht with h | h <;> subst h <;> simp
    · unfold Typed.resetUnread
      rw [if_pos hid]
      rcases ht with h | h <;> subst h <;> simp
    · intro h
      subst h
      unfold Typed.resetUnread
      rw [if_pos hid]
      simp
    · intro h
      subst h
      unfold Typed.resetUnread
      rw [if_pos hid]
      simp
  · have hfind2 : ((db.conversations.map
        (Typed.resetUnread cid uTy))).find? (fun c => c.id == cid)
        = some (Typed.resetUnread cid uTy conv) := by
      rw [listFindMapKey (fun c => c.id == cid)
        (Typed.resetUnread cid uTy) db.conversations
        (fun a => by simp [resetUnreadTyped_id]), hfind]
      rfl
    have hs2 := tPUT_success
      { db with
        messages := db.messages.map
          (Typed.markReadMsg cid
            (if uTy == "customer" then "vendor" else "customer")),
        conversations := db.conversations.map (Typed.resetUnread cid uTy) }
      cid uTy (Typed.resetUnread cid uTy conv) hu hfind2
    rw [hs2]
    show (200,
        { db with
          messages := (db.messages.map
            (Typed.markReadMsg cid
              (if uTy == "customer" then "vendor" else "customer"))).map
            (Typed.markReadMsg cid
              (if uTy == "customer" then "vendor" else "customer")),
          conversations := (db.conversations.map
            (Typed.resetUnread cid uTy)).map
            (Typed.resetUnread cid uTy) })
      = _
    rw [listMapIdem (Typed.markReadMsg cid
        (if uTy == "customer" then "vendor" else "customer")) db.messages
      (fun m => tmarkRead_idem cid _ m),
      listMapIdem (Typed.resetUnread cid uTy) db.conversations
        (fun c => treset_idem cid _ c)]

/-- C3: markConversationRead affects exactly one side, in both schema
variants.  Called by a participant B of an existing conversation, it
succeeds with 200; afterwards B's unread counter is 0 and every stored
message of the conversation authored by the other participant A is read,
while A's unread counter is unchanged and B's own messages pass through
the update untouched; and calling it again succeeds and changes
nothing. -/
theorem markConversationRead_one_side :
    (∀ (db : Unified.DB) (cid uId : String) (conv : Unified.Conversation),
      uId ≠ "" →
      db.conversations.find? (fun c => c.id == cid) = some conv →
      conv.senderId ≠ conv.receiverId →
      (conv.senderId = uId ∨ conv.receiverId = uId) →
      (Unified.conversationPUT db cid (some uId)).1 = 200 ∧
      (Unified.conversationPUT db cid (some uId)).2.messages
        = db.messages.map
            (Unified.markReadMsg cid (Unified.otherParticipant conv uId)) ∧
      (∀ m : Unified.Message,
        m.senderId ≠ Unified.otherParticipant conv uId →
        Unified.markReadMsg cid (Unified.otherParticipant conv uId) m = m) ∧
      (∀ m2 ∈ (Unified.conversationPUT db cid (some uId)).2.messages,
        m2.conversationId = cid →
        m2.senderId = Unified.otherParticipant conv uId →
        m2.isRead = true) ∧
      (∃ conv2,
        (Unified.conversationPUT db cid (some uId)).2.conversations.find?
          (fun c => c.id == cid) = some conv2 ∧
        conv2.senderId = conv.senderId ∧
        conv2.receiverId = conv.receiverId ∧
        Unified.unreadOf conv2 uId = 0 ∧
        Unified.unreadOf conv2 (Unified.otherParticipant conv uId)
          = Unified.unreadOf conv (Unified.otherParticipant conv uId)) ∧
      Unified.conversationPUT
          ((Unified.conversationPUT db cid (some uId)).2) cid (some uId)
        = (200, (Unified.conversationPUT db cid (some uId)).2)) ∧
    (∀ (db : Typed.DB) (cid uTy : String) (conv : Typed.Conversation),
      (uTy = "customer" ∨ uTy = "vendor") →
      db.conversations.find? (fun c => c.id == cid) = some conv →
      (Typed.conversationPUT db cid (some uTy)).1 = 200 ∧
      (Typed.conversationPUT db cid (some uTy)).2.messages
        = db.messages.map
            (Typed.markReadMsg cid
              (if uTy == "customer" then "vendor" else "customer")) ∧
      (∀ m : Typed.Message,
        m.senderType ≠ (if uTy == "customer" then "vendor" else "customer")
        → Typed.markReadMsg cid
            (if uTy == "customer" then "vendor" else "customer") m = m) ∧
      (∀ m2 ∈ (Typed.conversationPUT db cid (some uTy)).2.messages,
        m2.conversationId = cid →
        m2.senderType
          = (if uTy == "customer" then "vendor" else "customer") →
        m2.isRead = true) ∧
      (∃ conv2,
        (Typed.conversationPUT db cid (some uTy)).2.conversations.find?
          (fun c => c.id == cid) = some conv2 ∧
        conv2.customerId = conv.customerId ∧
        conv2.vendorId = conv.vendorId ∧
        (uTy = "customer" → conv2.customerUnread = 0 ∧
          conv2.vendorUnread = conv.vendorUnread) ∧
        (uTy = "vendor" → conv2.vendorUnread = 0 ∧
          conv2.customerUnread = conv.customerUnread)) ∧
      Typed.conversationPUT
          ((Typed.conversationPUT db cid (some uTy)).2) cid (some uTy)
        = (200, (Typed.conversationPUT db cid (some uTy)).2)) :=
  ⟨fun db cid uId conv hu hfind hdist hpart =>
      uPUT_markRead_spec db cid uId conv hu hfind hdist hpart,
    fun db cid uTy conv ht hfind =>
      tPUT_markRead_spec db cid uTy conv ht hfind⟩

/-- Witness for C3: concrete instances in both variants — user A marking
conversation c1 read in the unified store, and the customer side marking
conversation c1 read in the typed store. -/
theorem markConversationRead_one_side_witness :
    ("A" ≠ "") ∧
    Sample.udbR.conversations.find? (fun c => c.id == "c1")
      = some Sample.uconvR ∧
    Sample.uconvR.senderId ≠ Sample.uconvR.receiverId ∧
    (Sample.uconvR.senderId = "A" ∨ Sample.uconvR.receiverId = "A") ∧
    ((Unified.conversationPUT Sample.udbR "c1" (some "A")).1 = 200 ∧
      (Unified.conversationPUT Sample.udbR "c1" (some "A")).2.messages
        = Sample.udbR.messages.map
            (Unified.markReadMsg "c1"
              (Unified.otherParticipant Sample.uconvR "A")) ∧
      (∀ m : Unified.Message,
        m.senderId ≠ Unified.otherParticipant Sample.uconvR "A" →
        Unified.markReadMsg "c1"
          (Unified.otherParticipant Sample.uconvR "A") m = m) ∧
      (∀ m2 ∈ (Unified.conversationPUT Sample.udbR "c1"
          (some "A")).2.messages,
        m2.conversationId = "c1" →
        m2.senderId = Unified.otherParticipant Sample.uconvR "A" →
        m2.isRead = true) ∧
      (∃ conv2,
        (Unified.conversationPUT Sample.udbR "c1"
            (some "A")).2.conversations.find? (fun c => c.id == "c1")
          = some conv2 ∧
        conv2.senderId = Sample.uconvR.senderId ∧
        conv2.receiverId = Sample.uconvR.receiverId ∧
        Unified.unreadOf conv2 "A" = 0 ∧
        Unified.unreadOf conv2 (Unified.otherParticipant Sample.uconvR "A")
          = Unified.unreadOf Sample.uconvR
              (Unified.otherParticipant Sample.uconvR "A")) ∧
      Unified.conversationPUT
          ((Unified.conversationPUT Sample.udbR "c1" (some "A")).2) "c1"
          (some "A")
        = (200, (Unified.conversationPUT Sample.udbR "c1" (some "A")).2)) ∧
    ("customer" = "customer" ∨ "customer" = "vendor") ∧
    Sample.tdbR.conversations.find? (fun c => c.id == "c1")
      = some Sample.tconvR ∧
    ((Typed.conversationPUT Sample.tdbR "c1" (some "customer")).1 = 200 ∧
      (Typed.conversationPUT Sample.tdbR "c1" (some "customer")).2.messages
        = Sample.tdbR.messages.map
            (Typed.markReadMsg "c1"
              (if "customer" == "customer" then "vendor" else "customer")) ∧
      (∀ m : Typed.Message,
        m.senderType
          ≠ (if "customer" == "customer" then "vendor" else "customer") →
        Typed.markReadMsg "c1"
          (if "customer" == "customer" then "vendor" else "customer") m
          = m) ∧
      (∀ m2 ∈ (Typed.conversationPUT Sample.tdbR "c1"
          (some "customer")).2.messages,
        m2.conversationId = "c1" →
        m2.senderType
          = (if "customer" == "customer" then "vendor" else "customer") →
        m2.isRead = true) ∧
      (∃ conv2,
        (Typed.conversationPUT Sample.tdbR "c1"
            (some "customer")).2.conversations.find?
          (fun c => c.id == "c1") = some conv2 ∧
        conv2.customerId = Sample.tconvR.customerId ∧
        conv2.vendorId = Sample.tconvR.vendorId ∧
        ("customer" = "customer" → conv2.customerUnread = 0 ∧
          conv2.vendorUnread = Sample.tconvR.vendorUnread) ∧
        ("customer" = "vendor" → conv2.vendorUnread = 0 ∧
          conv2.customerUnread = Sample.tconvR.customerUnread)) ∧
      Typed.conversationPUT
          ((Typed.conversationPUT Sample.tdbR "c1" (some "customer")).2)
          "c1" (some "customer")
        = (200,
            (Typed.conversationPUT Sample.tdbR "c1" (some "customer")).2)) :=
  ⟨by decide, by rfl, by decide, Or.inl rfl,
    markConversationRead_one_side.1 Sample.udbR "c1" "A" Sample.uconvR
      (by decide) (by rfl) (by decide) (Or.inl rfl),
    Or.inl rfl, by rfl,
    markConversationRead_one_side.2 Sample.tdbR "c1" "customer"
      Sample.tconvR (Or.inl rfl) (by rfl)⟩

/-- Counterexample to C9: deleting a conversation id that does not exist
answers 500 (the ORM's not-found error is swallowed by the catch-all),
not 404, leaving the database unchanged. -/
theorem delete_missing_not_404 :
    (Typed.conversationDELETE Sample.tdb0 "c1").1 = 500 ∧
    (Typed.conversationDELETE Sample.tdb0 "c1").1 ≠ 404 ∧
    (Typed.conversationDELETE Sample.tdb0 "c1").2 = Sample.tdb0 := by
  refine ⟨by decide, by decide, by decide⟩

/-- C9 as amended: deleteConversation on a missing id fails with the
generic 500 storage error (not NotFoundError) and changes nothing; on an
existing id it succeeds with 200 and removes the conversation together
with all of its messages (cascade, modelled from the spec since the
schema file is not among the sources), after which getConversation
answers 404 and no message of the conversation remains retrievable. -/
theorem deleteConversation_spec (db : Typed.DB) (cid : String) :
    (db.conversations.find? (fun c => c.id == cid) = none →
      Typed.conversationDELETE db cid = (500, db)) ∧
    (∀ conv, db.conversations.find? (fun c => c.id == cid) = some conv →
      (Typed.conversationDELETE db cid).1 = 200 ∧
      Typed.conversationGET (Typed.conversationDELETE db cid).2 cid
        = (404, none) ∧
      (∀ m ∈ (Typed.conversationDELETE db cid).2.messages,
        m.conversationId ≠ cid) ∧
      (Typed.conversationDELETE db cid).2.conversations.find?
        (fun c => c.id == cid) = none) := by
  constructor
  · intro h
    simp [Typed.conversationDELETE, h]
  · intro conv h
    have hgone : (db.conversations.filter
        (fun c => !(c.id == cid))).find? (fun c => c.id == cid) = none := by
      rw [List.find?_eq_none]
      intro x hx
      have hpx := (List.mem_filter.mp hx).2
      simp only [Bool.not_eq_eq_eq_not, Bool.not_true] at hpx
      simp [hpx]
    refine ⟨?_, ?_, ?_, ?_⟩
    · simp [Typed.conversationDELETE, h]
    · have h2 : (Typed.conversationDELETE db cid).2.conversations
          = db.conversations.filter (fun c => !(c.id == cid)) := by
        simp [Typed.conversationDELETE, h]
      unfold Typed.conversationGET
      rw [h2, hgone]
    · intro m hm
      have h3 : (Typed.conversationDELETE db cid).2.messages
          = db.messages.filter (fun m => !(m.conversationId == cid)) := by
        simp [Typed.conversationDELETE, h]
      rw [h3] at hm
      have hpm := (List.mem_filter.mp hm).2
      simp only [Bool.not_eq_eq_eq_not, Bool.not_true] at hpm
      simpa using hpm
    · have h2 : (Typed.conversationDELETE db cid).2.conversations
          = db.conversations.filter (fun c => !(c.id == cid)) := by
        simp [Typed.conversationDELETE, h]
      rw [h2]
      exact hgone

/-- Witness for the amended C9: deleting the concrete existing
conversation c1 gives 200, after which fetching it gives 404 and no
message of c1 remains. -/
theorem deleteConversation_spec_witness :
    Sample.tdbR.conversations.find? (fun c => c.id == "c1")
      = some Sample.tconvR ∧
    ((Typed.conversationDELETE Sample.tdbR "c1").1 = 200 ∧
      Typed.conversationGET (Typed.conversationDELETE Sample.tdbR "c1").2
        "c1" = (404, none) ∧
      (∀ m ∈ (Typed.conversationDELETE Sample.tdbR "c1").2.messages,
        m.conversationId ≠ "c1") ∧
      (Typed.conversationDELETE Sample.tdbR "c1").2.conversations.find?
        (fun c => c.id == "c1") = none) :=
  ⟨by rfl, (deleteConversation_spec Sample.tdbR "c1").2 Sample.tconvR
    (by rfl)⟩

/-- The unified pair filter is symmetric in the two participant ids. -/
theorem uconvMatch_symm (sId rId : String) (p : Option String)
    (c : Unified.Conversation) :
    Unified.convMatch rId sId p c = Unified.convMatch sId rId p c := by
  unfold Unified.convMatch
  exact Bool.or_comm _ _

/-- Found-case shape of the unified create-or-get: when the lookup hits,
the stored conversation is returned with 200 and nothing changes. -/
theorem uconvPOST_found (db : Unified.DB) (sId rId : String)
    (pId subject : Option String) (c : Unified.Conversation)
    (hs : sId ≠ "") (hr : rId ≠ "") (hne : sId ≠ rId)
    (hfind : db.conversations.find? (Unified.convMatch sId rId pId)
      = some c) :
    Unified.conversationsPOST db (some sId) (some rId) pId subject
      = (200, some c, db) := by
  have hb : (sId == rId) = false := beq_eq_false_iff_ne.mpr hne
  simp [Unified.conversationsPOST, optTruthy, hs, hr, hb, hfind]

/-- Found-case shape of the typed create-or-get. -/
theorem tconvPOST_found (db : Typed.DB) (cId vId : String)
    (pId subject : Option String) (c : Typed.Conversation)
    (hc : cId ≠ "") (hv : vId ≠ "")
    (hfind : db.conversations.find? (Typed.convMatch cId vId pId)
      = some c) :
    Typed.conversationsPOST db (some cId) (some vId) pId subject
      = (200, some c, db) := by
  simp [Typed.conversationsPOST, optTruthy, hc, hv, hfind]


/-- The unified pair filter accepts the conversation freshly created for
the same arguments. -/
theorem uconvMatch_newConv (db : Unified.DB) (sId rId : String)
    (pId subj : Option String) :
    Unified.convMatch sId rId pId (Unified.newConv db sId rId pId subj)
      = true := by
  cases hpt : optTruthy pId
  · unfold Unified.convMatch Unified.newConv
    simp [hpt]
  · unfold Unified.convMatch Unified.newConv
    simp [hpt]

/-- The typed pair filter accepts the conversation freshly created for
the same arguments. -/
theorem tconvMatch_newConv (db : Typed.DB) (cId vId : String)
    (pId subj : Option String) :
    Typed.convMatch cId vId pId (Typed.newConv db cId vId pId subj)
      = true := by
  cases hpt : optTruthy pId
  · unfold Typed.convMatch Typed.newConv
    simp [hpt]
  · unfold Typed.convMatch Typed.newConv
    simp [hpt]

/-- Create-case shape of the unified create-or-get: when the lookup
misses and both users (and the product, when given) resolve, the fresh
conversation newConv is appended. -/
theorem uconvPOST_create (db : Unified.DB) (sId rId : String)
    (pId subject : Option String)
    (hs : sId ≠ "") (hr : rId ≠ "") (hne : sId ≠ rId)
    (hfind : db.conversations.find? (Unified.convMatch sId rId pId) = none)
    (husr1 : db.users.contains sId = true)
    (husr2 : db.users.contains rId = true)
    (hprod : optTruthy pId = true →
      db.products.contains (pId.getD "") = true) :
    Unified.conversationsPOST db (some sId) (some rId) pId subject
      = (201, some (Unified.newConv db sId rId pId subject),
          { db with
            conversations := db.conversations ++
              [Unified.newConv db sId rId pId subject],
            clock := db.clock + 1, nextId := db.nextId + 1 }) := by
  have hb : (sId == rId) = false := beq_eq_false_iff_ne.mpr hne
  have husr1m : sId ∈ db.users := by simpa using husr1
  have husr2m : rId ∈ db.users := by simpa using husr2
  have hpres : (!optTruthy (some sId) || !optTruthy (some rId)) = false := by
    simp [optTruthy, hs, hr]
  cases hpt : optTruthy pId
  · simp [Unified.conversationsPOST, hpres, hb, hfind, husr1m, husr2m, hpt]
  · have hmem : pId.getD "" ∈ db.products := by simpa using hprod hpt
    simp [Unified.conversationsPOST, hpres, hb, hfind, husr1m, husr2m,
      hpt, hmem]

/-- Create-case shape of the typed create-or-get: no self-conversation
check exists on this path. -/
theorem tconvPOST_create (db : Typed.DB) (cId vId : String)
    (pId subject : Option String)
    (hc : cId ≠ "") (hv : vId ≠ "")
    (hfind : db.conversations.find? (Typed.convMatch cId vId pId) = none)
    (hcust : db.customers.contains cId = true)
    (hvend : db.vendors.contains vId = true)
    (hprod : optTruthy pId = true →
      db.products.contains (pId.getD "") = true) :
    Typed.conversationsPOST db (some cId) (some vId) pId subject
      = (201, some (Typed.newConv db cId vId pId subject),
          { db with
            conversations := db.conversations ++
              [Typed.newConv db cId vId pId subject],
            clock := db.clock + 1, nextId := db.nextId + 1 }) := by
  have hcustm : cId ∈ db.customers := by simpa using hcust
  have hvendm : vId ∈ db.vendors := by simpa using hvend
  have hpres : (!optTruthy (some cId) || !optTruthy (some vId)) = false := by
    simp [optTruthy, hc, hv]
  cases hpt : optTruthy pId
  · simp [Typed.conversationsPOST, hpres, hfind, hcustm, hvendm, hpt]
  · have hmem : pId.getD "" ∈ db.products := by simpa using hprod hpt
    simp [Typed.conversationsPOST, hpres, hfind, hcustm, hvendm, hpt, hmem]

/-- C1: startOrGetConversation is idempotent and order-independent.  In
the unified variant, whose lookup checks both orderings of the stored
pair: when a matching conversation exists, calling with (A,B,P) or with
(B,A,P) returns that same conversation with 200 and changes nothing; when
none exists and both participants (and the product, when given) resolve,
the first call creates exactly one record (201) and any repeat call, in
either argument order, returns that same record with 200 and creates
nothing further.  In the typed variant the same lookup-before-create
idempotence holds for the stored argument order. -/
theorem startOrGetConversation_idempotent :
    (∀ (db : Unified.DB) (sId rId : String) (pId subj : Option String)
        (c : Unified.Conversation),
      sId ≠ "" → rId ≠ "" → sId ≠ rId →
      db.conversations.find? (Unified.convMatch sId rId pId) = some c →
      Unified.conversationsPOST db (some sId) (some rId) pId subj
        = (200, some c, db) ∧
      Unified.conversationsPOST db (some rId) (some sId) pId subj
        = (200, some c, db)) ∧
    (∀ (db : Unified.DB) (sId rId : String) (pId subj : Option String),
      sId ≠ "" → rId ≠ "" → sId ≠ rId →
      db.conversations.find? (Unified.convMatch sId rId pId) = none →
      db.users.contains sId = true → db.users.contains rId = true →
      (optTruthy pId = true →
        db.products.contains (pId.getD "") = true) →
      (Unified.conversationsPOST db (some sId) (some rId) pId subj).1
        = 201 ∧
      ∃ c,
        (Unified.conversationsPOST db (some sId) (some rId) pId subj).2.1
          = some c ∧
        (Unified.conversationsPOST db (some sId) (some rId) pId
            subj).2.2.conversations = db.conversations ++ [c] ∧
        (Unified.conversationsPOST db (some sId) (some rId) pId
            subj).2.2.conversations.length
          = db.conversations.length + 1 ∧
        Unified.conversationsPOST
            ((Unified.conversationsPOST db (some sId) (some rId) pId
              subj).2.2) (some sId) (some rId) pId subj
          = (200, some c,
              (Unified.conversationsPOST db (some sId) (some rId) pId
                subj).2.2) ∧
        Unified.conversationsPOST
            ((Unified.conversationsPOST db (some sId) (some rId) pId
              subj).2.2) (some rId) (some sId) pId subj
          = (200, some c,
              (Unified.conversationsPOST db (some sId) (some rId) pId
                subj).2.2)) ∧
    (∀ (db : Typed.DB) (cId vId : String) (pId subj : Option String)
        (c : Typed.Conversation),
      cId ≠ "" → vId ≠ "" →
      db.conversations.find? (Typed.convMatch cId vId pId) = some c →
      Typed.conversationsPOST db (some cId) (some vId) pId subj
        = (200, some c, db)) ∧
    (∀ (db : Typed.DB) (cId vId : String) (pId subj : Option String),
      cId ≠ "" → vId ≠ "" →
      db.conversations.find? (Typed.convMatch cId vId pId) = none →
      db.customers.contains cId = true →
      db.vendors.contains vId = true →
      (optTruthy pId = true →
        db.products.contains (pId.getD "") = true) →
      (Typed.conversationsPOST db (some cId) (some vId) pId subj).1
        = 201 ∧
      ∃ c,
        (Typed.conversationsPOST db (some cId) (some vId) pId subj).2.1
          = some c ∧
        (Typed.conversationsPOST db (some cId) (some vId) pId
            subj).2.2.conversations = db.conversations ++ [c] ∧
        (Typed.conversationsPOST db (some cId) (some vId) pId
            subj).2.2.conversations.length
          = db.conversations.length + 1 ∧
        Typed.conversationsPOST
            ((Typed.conversationsPOST db (some cId) (some vId) pId
              subj).2.2) (some cId) (some vId) pId subj
          = (200, some c,
              (Typed.conversationsPOST db (some cId) (some vId) pId
                subj).2.2)) := by
  refine ⟨?_, ?_, ?_, ?_⟩
  · intro db sId rId pId subj c hs hr hne hfind
    refine ⟨uconvPOST_found db sId rId pId subj c hs hr hne hfind, ?_⟩
    have hfindsw : db.conversations.find? (Unified.convMatch rId sId pId)
        = some c :=
      (listFindCongr (Unified.convMatch rId sId pId)
        (Unified.convMatch sId rId pId) db.conversations
        (uconvMatch_symm sId rId pId)).trans hfind
    exact uconvPOST_found db rId sId pId subj c hr hs (Ne.symm hne) hfindsw
  · intro db sId rId pId subj hs hr hne hfind hu1 hu2 hp
    have hcr := uconvPOST_create db sId rId pId subj hs hr hne hfind hu1
      hu2 hp
    rw [hcr]
    have hfind1 : (db.conversations ++
        [Unified.newConv db sId rId pId subj]).find?
        (Unified.convMatch sId rId pId)
        = some (Unified.newConv db sId rId pId subj) := by
      rw [listFindAppend, hfind]
      simp [List.find?, uconvMatch_newConv db sId rId pId subj]
    have hfind1sw : (db.conversations ++
        [Unified.newConv db sId rId pId subj]).find?
        (Unified.convMatch rId sId pId)
        = some (Unified.newConv db sId rId pId subj) :=
      (listFindCongr (Unified.convMatch rId sId pId)
        (Unified.convMatch sId rId pId) _
        (uconvMatch_symm sId rId pId)).trans hfind1
    refine ⟨rfl, Unified.newConv db sId rId pId subj, rfl, rfl,
      by simp, ?_, ?_⟩
    · exact uconvPOST_found _ sId rId pId subj _ hs hr hne hfind1
    · exact uconvPOST_found _ rId sId pId subj _ hr hs (Ne.symm hne)
        hfind1sw
  · intro db cId vId pId subj c hc hv hfind
    exact tconvPOST_found db cId vId pId subj c hc hv hfind
  · intro db cId vId pId subj hc hv hfind hcust hvend hp
    have hcr := tconvPOST_create db cId vId pId subj hc hv hfind hcust
      hvend hp
    rw [hcr]
    have hfind1 : (db.conversations ++
        [Typed.newConv db cId vId pId subj]).find?
        (Typed.convMatch cId vId pId)
        = some (Typed.newConv db cId vId pId subj) := by
      rw [listFindAppend, hfind]
      simp [List.find?, tconvMatch_newConv db cId vId pId subj]
    refine ⟨rfl, Typed.newConv db cId vId pId subj, rfl, rfl,
      by simp, ?_⟩
    exact tconvPOST_found _ cId vId pId subj _ hc hv hfind1

/-- Witness for C1: creating a product-scoped conversation between the
concrete users A and B, then repeating the call in both argument orders,
returns the very record just created; similarly for the typed variant in
its stored order. -/
theorem startOrGetConversation_idempotent_witness :
    ("A" ≠ "") ∧ ("B" ≠ "") ∧ ("A" ≠ "B") ∧
    Sample.udb0.conversations.find? (Unified.convMatch "A" "B" (some "P"))
      = none ∧
    Sample.udb0.users.contains "A" = true ∧
    Sample.udb0.users.contains "B" = true ∧
    (optTruthy (some "P") = true →
      Sample.udb0.products.contains ((some "P" : Option String).getD "")
        = true) ∧
    ((Unified.conversationsPOST Sample.udb0 (some "A") (some "B")
        (some "P") none).1 = 201 ∧
      ∃ c,
        (Unified.conversationsPOST Sample.udb0 (some "A") (some "B")
            (some "P") none).2.1 = some c ∧
        (Unified.conversationsPOST Sample.udb0 (some "A") (some "B")
            (some "P") none).2.2.conversations
          = Sample.udb0.conversations ++ [c] ∧
        (Unified.conversationsPOST Sample.udb0 (some "A") (some "B")
            (some "P") none).2.2.conversations.length
          = Sample.udb0.conversations.length + 1 ∧
        Unified.conversationsPOST
            ((Unified.conversationsPOST Sample.udb0 (some "A") (some "B")
              (some "P") none).2.2) (some "A") (some "B") (some "P") none
          = (200, some c,
              (Unified.conversationsPOST Sample.udb0 (some "A") (some "B")
                (some "P") none).2.2) ∧
        Unified.conversationsPOST
            ((Unified.conversationsPOST Sample.udb0 (some "A") (some "B")
              (some "P") none).2.2) (some "B") (some "A") (some "P") none
          = (200, some c,
              (Unified.conversationsPOST Sample.udb0 (some "A") (some "B")
                (some "P") none).2.2)) ∧
    Sample.tdb0.conversations.find? (Typed.convMatch "A" "B" (some "P"))
      = none ∧
    Sample.tdb0.customers.contains "A" = true ∧
    Sample.tdb0.vendors.contains "B" = true ∧
    ((Typed.conversationsPOST Sample.tdb0 (some "A") (some "B")
        (some "P") none).1 = 201 ∧
      ∃ c,
        (Typed.conversationsPOST Sample.tdb0 (some "A") (some "B")
            (some "P") none).2.1 = some c ∧
        (Typed.conversationsPOST Sample.tdb0 (some "A") (some "B")
            (some "P") none).2.2.conversations
          = Sample.tdb0.conversations ++ [c] ∧
        (Typed.conversationsPOST Sample.tdb0 (some "A") (some "B")
            (some "P") none).2.2.conversations.length
          = Sample.tdb0.conversations.length + 1 ∧
        Typed.conversationsPOST
            ((Typed.conversationsPOST Sample.tdb0 (some "A") (some "B")
              (some "P") none).2.2) (some "A") (some "B") (some "P") none
          = (200, some c,
              (Typed.conversationsPOST Sample.tdb0 (some "A") (some "B")
                (some "P") none).2.2)) :=
  ⟨by decide, by decide, by decide, by rfl, by decide, by decide,
    by decide,
    startOrGetConversation_idempotent.2.1 Sample.udb0 "A" "B" (some "P")
      none (by decide) (by decide) (by decide) (by rfl) (by decide)
      (by decide) (by decide),
    by rfl, by decide, by decide,
    startOrGetConversation_idempotent.2.2.2 Sample.tdb0 "A" "B" (some "P")
      none (by decide) (by decide) (by rfl) (by decide) (by decide)
      (by decide)⟩

/-- Counterexample to C6: the role-typed create has no self-conversation
check — when the same id exists as both a customer and a vendor and no
matching conversation exists, calling it with (A,A) creates (201) a
conversation whose two participant ids are equal, instead of failing with
a 400 validation error. -/
theorem self_conversation_created :
    (Typed.conversationsPOST Sample.tdbAA (some "A") (some "A") none
        none).1 = 201 ∧
    ∃ c,
      (Typed.conversationsPOST Sample.tdbAA (some "A") (some "A") none
          none).2.1 = some c ∧
      c.customerId = c.vendorId :=
  ⟨by decide, Typed.newConv Sample.tdbAA "A" "A" none none, by rfl,
    by decide⟩

/-- C6 as amended: only the role-neutral variant rejects self-conversation
— for every id A it answers 400 and creates nothing.  The role-typed
variant performs no equality check: whenever the id resolves as both a
customer and a vendor and the lookup misses, it creates a conversation
whose customerId and vendorId are the same id. -/
theorem self_conversation_variants (db : Unified.DB) (db2 : Typed.DB)
    (a b : String) (pId subj pId2 subj2 : Option String)
    (hfind : db2.conversations.find? (Typed.convMatch b b pId2) = none)
    (hcust : db2.customers.contains b = true)
    (hvend : db2.vendors.contains b = true)
    (hprod : optTruthy pId2 = true →
      db2.products.contains (pId2.getD "") = true)
    (hb : b ≠ "") :
    Unified.conversationsPOST db (some a) (some a) pId subj
      = (400, none, db) ∧
    ((Typed.conversationsPOST db2 (some b) (some b) pId2 subj2).1 = 201 ∧
      ∃ c,
        (Typed.conversationsPOST db2 (some b) (some b) pId2 subj2).2.1
          = some c ∧
        c.customerId = b ∧ c.vendorId = b) := by
  constructor
  · by_cases ha : a = ""
    · subst ha
      simp [Unified.conversationsPOST, optTruthy]
    · have hpres : (!optTruthy (some a) || !optTruthy (some a))
          = false := by
        simp [optTruthy, ha]
      simp [Unified.conversationsPOST, hpres]
  · rw [tconvPOST_create db2 b b pId2 subj2 hb hb hfind hcust hvend hprod]
    exact ⟨rfl, Typed.newConv db2 b b pId2 subj2, rfl, rfl, rfl⟩

/-- Witness for the amended C6: the unified store rejects (A,A) with 400;
the typed store, where A is both a customer and a vendor, creates the
self-conversation. -/
theorem self_conversation_variants_witness :
    Sample.tdbAA.conversations.find? (Typed.convMatch "A" "A" none)
      = none ∧
    Sample.tdbAA.customers.contains "A" = true ∧
    Sample.tdbAA.vendors.contains "A" = true ∧
    (optTruthy none = true →
      Sample.tdbAA.products.contains ((none : Option String).getD "")
        = true) ∧
    ("A" ≠ "") ∧
    (Unified.conversationsPOST Sample.udb0 (some "A") (some "A") none none
      = (400, none, Sample.udb0) ∧
    ((Typed.conversationsPOST Sample.tdbAA (some "A") (some "A") none
        none).1 = 201 ∧
      ∃ c,
        (Typed.conversationsPOST Sample.tdbAA (some "A") (some "A") none
            none).2.1 = some c ∧
        c.customerId = "A" ∧ c.vendorId = "A")) :=
  ⟨by rfl, by decide, by decide, by decide, by decide,
    self_conversation_variants Sample.udb0 Sample.tdbAA "A" "A" none none
      none none (by rfl) (by decide) (by decide) (by decide) (by decide)⟩

/-- Counterexample to C7: on a store holding only a product-scoped
conversation between A and B, a create-or-get call with no productId
returns that product-scoped conversation with 200 — the lookup does not
require both product associations to be absent, because the conditional
spread drops the product filter entirely when productId is falsy. -/
theorem product_filter_dropped :
    (Unified.conversationsPOST Sample.udbP (some "A") (some "B") none
        none).1 = 200 ∧
    (Unified.conversationsPOST Sample.udbP (some "A") (some "B") none
        none).2.1 = some Sample.uconvP ∧
    Sample.uconvP.productId = some "P" :=
  ⟨by decide, by decide, by decide⟩

/-- C7 as amended: the lookup respects the product key only when a truthy
productId is supplied — then any returned conversation carries exactly
that stored product.  When productId is absent, the product filter is
dropped altogether and the lookup reduces to the bare pair match,
returning the first conversation of the pair regardless of its product
association. -/
theorem findByParticipants_product_filter (db : Unified.DB)
    (sId rId p : String) (hp : p ≠ "") :
    (∀ c, db.conversations.find? (Unified.convMatch sId rId (some p))
        = some c → c.productId = some p) ∧
    db.conversations.find? (Unified.convMatch sId rId none)
      = db.conversations.find? (fun c =>
          (c.senderId == sId && c.receiverId == rId) ||
          (c.senderId == rId && c.receiverId == sId)) := by
  constructor
  · intro c hfind
    have hc := List.find?_some hfind
    have hpt : optTruthy (some p) = true := by
      simp [optTruthy, hp]
    unfold Unified.convMatch at hc
    simp only [hpt, if_true, Bool.or_eq_true, Bool.and_eq_true,
      beq_iff_eq] at hc
    rcases hc with ⟨⟨h1, h2⟩, h3⟩ | ⟨⟨h1, h2⟩, h3⟩ <;> exact h3
  · apply listFindCongr
    intro a
    unfold Unified.convMatch
    simp [optTruthy]

/-- Witness for the amended C7: on the concrete store, a lookup with
product P only ever returns a conversation storing P, and the
no-product lookup equals the bare pair lookup. -/
theorem findByParticipants_product_filter_witness :
    ("P" ≠ "") ∧
    ((∀ c, Sample.udbP.conversations.find?
          (Unified.convMatch "A" "B" (some "P")) = some c →
        c.productId = some "P") ∧
      Sample.udbP.conversations.find? (Unified.convMatch "A" "B" none)
        = Sample.udbP.conversations.find? (fun c =>
            (c.senderId == "A" && c.receiverId == "B") ||
            (c.senderId == "B" && c.receiverId == "A"))) :=
  ⟨by decide,
    findByParticipants_product_filter Sample.udbP "A" "B" "P" (by decide)⟩
